import Mathlib

/-!
Shallow embedding of the result model, metrics engine, shard-merge
protocol and process/generation supervisors of the `deepseek_prover_eval`
repository, together with theorems settling the specification claims.

Durations are modelled as rationals (`ℚ`), file contents and identifiers
as `String`, and the fallible operations as functions into `Except` /
explicit outcome types.
-/

namespace DeepseekProverEval

/-- One proof generation attempt, mirroring the dataclass `ProofAttempt`
in `src/metrics.py` (lines 18-33). -/
structure ProofAttempt where
  attempt_number : Nat
  success : Bool
  generation_time : ℚ
  lean_check_time : ℚ
  total_time : ℚ
  timeout_occurred : Bool := false
  generation_error : Option String := none
  lean_error : Option String := none
  raw_output : Option String := none
  extracted_solution : Option String := none
  final_lean_code : Option String := none
  lean_stdout : Option String := none
  lean_stderr : Option String := none
  deriving Repr, DecidableEq, Inhabited

/-- Results for a single problem across all attempts, mirroring the
dataclass `ProblemResult` in `src/metrics.py` (lines 36-48). -/
structure ProblemResult where
  problem_id : String
  problem_path : String
  mode : String
  dataset : String
  attempts : List ProofAttempt
  passed : Bool
  first_success_attempt : Option Nat := none
  total_generation_time : ℚ := 0
  total_lean_check_time : ℚ := 0
  total_time : ℚ := 0
  deriving Repr, DecidableEq, Inhabited

/-- Complete evaluation metrics, mirroring the dataclass
`EvaluationMetrics` in `src/metrics.py` (lines 51-74).  The wall-clock
fields `timestamp` and `total_evaluation_time` are inputs of the
embedding (the source reads the clock). -/
structure EvaluationMetrics where
  dataset : String
  mode : String
  total_problems : Nat
  problems_passed : Nat
  problems_failed : Nat
  pass_at_1 : ℚ
  pass_at_8 : ℚ
  pass_at_32 : ℚ
  total_timeouts : Nat
  problems_with_timeouts : Nat
  avg_generation_time : ℚ
  avg_lean_check_time : ℚ
  avg_total_time : ℚ
  median_generation_time : ℚ
  median_lean_check_time : ℚ
  median_total_time : ℚ
  total_generation_time : ℚ
  total_lean_check_time : ℚ
  total_evaluation_time : ℚ
  timestamp : String
  problem_results : List ProblemResult
  deriving Repr, DecidableEq

/-- `MetricsTracker.record_attempt` (`src/metrics.py` lines 111-152):
a pure constructor deriving `total_time = generation_time + lean_check_time`. -/
def record_attempt (attempt_number : Nat) (success : Bool)
    (generation_time lean_check_time : ℚ)
    (timeout_occurred : Bool := false)
    (generation_error : Option String := none)
    (lean_error : Option String := none)
    (raw_output : Option String := none)
    (extracted_solution : Option String := none)
    (final_lean_code : Option String := none)
    (lean_stdout : Option String := none)
    (lean_stderr : Option String := none) : ProofAttempt :=
  { attempt_number := attempt_number
    success := success
    generation_time := generation_time
    lean_check_time := lean_check_time
    total_time := generation_time + lean_check_time
    timeout_occurred := timeout_occurred
    generation_error := generation_error
    lean_error := lean_error
    raw_output := raw_output
    extracted_solution := extracted_solution
    final_lean_code := final_lean_code
    lean_stdout := lean_stdout
    lean_stderr := lean_stderr }

/-- The `first_success` loop of `finish_problem` (`src/metrics.py`
lines 169-173): the index of the first successful attempt, or `none`. -/
def first_success_index : List ProofAttempt → Option Nat
  | [] => none
  | a :: rest =>
      if a.success then some 0 else (first_success_index rest).map (· + 1)

/-- `MetricsTracker.finish_problem` (`src/metrics.py` lines 154-195):
derives `passed`, `first_success_attempt` and the summed times and
constructs the `ProblemResult` (the persistence side effect is modelled
separately by `save_problem_filename`). -/
def finish_problem (dataset mode problem_id problem_path : String)
    (attempts : List ProofAttempt) : ProblemResult :=
  { problem_id := problem_id
    problem_path := problem_path
    mode := mode
    dataset := dataset
    attempts := attempts
    passed := attempts.any (·.success)
    first_success_attempt := first_success_index attempts
    total_generation_time := (attempts.map (·.generation_time)).sum
    total_lean_check_time := (attempts.map (·.lean_check_time)).sum
    total_time := (attempts.map (·.total_time)).sum }

/-- Python `str.replace(old, new)` for a single-character pattern and
replacement: every occurrence of `old` is substituted character-wise. -/
def pyReplaceChar (s : String) (old new : Char) : String :=
  ⟨s.data.map (fun c => if c = old then new else c)⟩

/-- The sanitised filename stem used by
`MetricsTracker._save_problem_result` (`src/metrics.py` line 200):
`problem_id.replace("/", "_").replace("\\", "_")`. -/
def safe_id (problem_id : String) : String :=
  pyReplaceChar (pyReplaceChar problem_id '/' '_') '\\' '_'

/-- The filename `_save_problem_result` writes a `ProblemResult` to
(`src/metrics.py` lines 197-209). -/
def save_problem_filename (pr : ProblemResult) : String :=
  safe_id pr.problem_id ++ ".json"

/-- Python's `sorted` on a list of rationals (ascending). -/
def pySorted (xs : List ℚ) : List ℚ :=
  xs.insertionSort (· ≤ ·)

/-- The median expression of `compute_metrics`
(`src/metrics.py` lines 244-246): `sorted(xs)[len(xs) // 2]` when the
list is non-empty, else `0.0`. -/
def pyMedian (xs : List ℚ) : ℚ :=
  if xs.isEmpty then 0 else (pySorted xs).getD (xs.length / 2) 0

/-- `MetricsTracker.compute_metrics` (`src/metrics.py` lines 211-276),
over the tracker's accumulated `problem_results`; the wall-clock
`total_evaluation_time` and `timestamp` are parameters. -/
def compute_metrics (dataset mode : String)
    (problem_results : List ProblemResult)
    (total_evaluation_time : ℚ) (timestamp : String) : EvaluationMetrics :=
  let total_problems := problem_results.length
  let problems_passed := problem_results.countP (·.passed)
  let pass_at_1_count := problem_results.countP
    (fun r => match r.attempts with
              | [] => false
              | a :: _ => a.success)
  let pass_at_1 : ℚ :=
    if 0 < total_problems then (pass_at_1_count : ℚ) / (total_problems : ℚ) else 0
  let pass_at_8_count := problem_results.countP
    (fun r => !r.attempts.isEmpty && (r.attempts.take 8).any (·.success))
  let pass_at_8 : ℚ :=
    if 0 < total_problems then (pass_at_8_count : ℚ) / (total_problems : ℚ) else 0
  let pass_at_32 : ℚ :=
    if 0 < total_problems then (problems_passed : ℚ) / (total_problems : ℚ) else 0
  let total_timeouts :=
    (problem_results.map (fun r => r.attempts.countP (·.timeout_occurred))).sum
  let problems_with_timeouts :=
    problem_results.countP (fun r => r.attempts.any (·.timeout_occurred))
  let all_gen_times := (problem_results.map
    (fun r => r.attempts.map (·.generation_time))).flatten
  let all_lean_times := (problem_results.map
    (fun r => r.attempts.map (·.lean_check_time))).flatten
  let all_total_times := (problem_results.map
    (fun r => r.attempts.map (·.total_time))).flatten
  let avg_gen_time : ℚ :=
    if all_gen_times.isEmpty then 0 else all_gen_times.sum / (all_gen_times.length : ℚ)
  let avg_lean_time : ℚ :=
    if all_lean_times.isEmpty then 0 else all_lean_times.sum / (all_lean_times.length : ℚ)
  let avg_total_time : ℚ :=
    if all_total_times.isEmpty then 0 else all_total_times.sum / (all_total_times.length : ℚ)
  { dataset := dataset
    mode := mode
    total_problems := total_problems
    problems_passed := problems_passed
    problems_failed := total_problems - problems_passed
    pass_at_1 := pass_at_1
    pass_at_8 := pass_at_8
    pass_at_32 := pass_at_32
    total_timeouts := total_timeouts
    problems_with_timeouts := problems_with_timeouts
    avg_generation_time := avg_gen_time
    avg_lean_check_time := avg_lean_time
    avg_total_time := avg_total_time
    median_generation_time := pyMedian all_gen_times
    median_lean_check_time := pyMedian all_lean_times
    median_total_time := pyMedian all_total_times
    total_generation_time := all_gen_times.sum
    total_lean_check_time := all_lean_times.sum
    total_evaluation_time := total_evaluation_time
    timestamp := timestamp
    problem_results := problem_results }

/-! ## Shard merge protocol (`scripts/merge_shards.py`) -/

/-- One problem JSON file inside a shard's `proofs/` directory: its
filename stem (what `merge_shards` reads as `problem_file.stem`,
line 65) and its parsed content. -/
structure ShardFile where
  stem : String
  data : ProblemResult
  deriving Repr, DecidableEq

/-- The fields of a shard's latest metrics snapshot that `merge_shards`
reads: `mode` (filter, line 88) and `total_evaluation_time` (summed,
line 128).  The shard's own advisory aggregate `pass_at_1` is carried to
state that the merge ignores it. -/
structure ShardMetrics where
  mode : String
  total_evaluation_time : ℚ
  pass_at_1 : ℚ
  deriving Repr, DecidableEq

/-- A `ShardCorpus`: the sorted list of problem files plus the latest
metrics snapshot when one exists (`load_latest_metrics` raising
`FileNotFoundError` is the `none` case, lines 84-91). -/
structure Shard where
  files : List ShardFile
  metrics : Option ShardMetrics
  deriving Repr, DecidableEq

/-- The deduplication pass of `merge_shards` (lines 63-80): files whose
stem was already seen are skipped with a warning; the others are kept,
in order, and their stems added to `problem_ids_seen`. -/
def dedupFiles (seen : List String) : List ShardFile → List ShardFile
  | [] => []
  | f :: rest =>
      if seen.contains f.stem then dedupFiles seen rest
      else f :: dedupFiles (f.stem :: seen) rest

/-- Fatal conditions of `merge_shards`: no `shard_*` directory
(line 47) and no problem result found (line 97), both `SystemExit`. -/
inductive MergeError
  | noShards
  | noProblems
  deriving Repr, DecidableEq

/-- The merged output of `merge_shards`: the copied problem files and
the merged metrics dictionary (lines 134-157).  `pass_at_32` is
`Option`-valued because the source stores `None` unless at least 32
samples were run (line 145). -/
structure MergedResult where
  proofs : List ShardFile
  mode : String
  total_problems : Nat
  problems_passed : Nat
  problems_failed : Nat
  num_samples : Nat
  pass_at_1 : ℚ
  pass_at_8 : ℚ
  pass_at_all : ℚ
  pass_at_32 : Option ℚ
  total_timeouts : Nat
  problems_with_timeouts : Nat
  avg_generation_time : ℚ
  avg_lean_check_time : ℚ
  avg_total_time : ℚ
  total_generation_time : ℚ
  total_lean_check_time : ℚ
  total_evaluation_time : ℚ
  shards_merged : Nat
  problem_results : List ProblemResult
  deriving Repr, DecidableEq, Inhabited

/-- `merge_shards` (`scripts/merge_shards.py` lines 32-190), with the
filesystem abstracted to the list of shard corpora in sorted directory
order.  Duplicate stems are skipped (not fatal); the only fatal paths
are zero shards and zero problem results. -/
def merge_shards (shards : List Shard) (modeFilter : Option String) :
    Except MergeError MergedResult :=
  if shards.isEmpty then .error .noShards
  else
    let allFiles := (shards.map (·.files)).flatten
    let kept := dedupFiles [] allFiles
    let all_problem_results := kept.map (·.data)
    let all_metrics := (shards.filterMap (·.metrics)).filter
      (fun m => match modeFilter with
                | none => true
                | some md => m.mode == md)
    if all_problem_results.isEmpty then .error .noProblems
    else
      let total_problems := all_problem_results.length
      let total_passed := all_problem_results.countP (·.passed)
      let pass1 := all_problem_results.countP
        (fun p => match p.attempts with
                  | [] => false
                  | a :: _ => a.success)
      let pass8 := all_problem_results.countP
        (fun p => (p.attempts.take 8).any (·.success))
      let pass_all := all_problem_results.countP
        (fun p => p.attempts.any (·.success))
      let max_attempts := (all_problem_results.map (·.attempts.length)).foldl max 0
      let all_gen_times := (all_problem_results.map
        (fun p => p.attempts.map (·.generation_time))).flatten
      let all_lean_times := (all_problem_results.map
        (fun p => p.attempts.map (·.lean_check_time))).flatten
      let all_total_times := (all_problem_results.map
        (fun p => p.attempts.map (·.total_time))).flatten
      let avg_gen_time : ℚ :=
        if all_gen_times.isEmpty then 0 else all_gen_times.sum / (all_gen_times.length : ℚ)
      let avg_lean_time : ℚ :=
        if all_lean_times.isEmpty then 0 else all_lean_times.sum / (all_lean_times.length : ℚ)
      let avg_total_time : ℚ :=
        if all_total_times.isEmpty then 0 else all_total_times.sum / (all_total_times.length : ℚ)
      let total_timeouts :=
        (all_problem_results.map (fun p => p.attempts.countP (·.timeout_occurred))).sum
      let problems_with_timeouts := all_problem_results.countP
        (fun p => p.attempts.any (·.timeout_occurred))
      let total_evaluation_time := (all_metrics.map (·.total_evaluation_time)).sum
      let num_samples := if 0 < max_attempts then max_attempts else 8
      .ok
        { proofs := kept
          mode := match all_problem_results with
                  | [] => "noncot"
                  | p :: _ => p.mode
          total_problems := total_problems
          problems_passed := total_passed
          problems_failed := total_problems - total_passed
          num_samples := num_samples
          pass_at_1 :=
            if 0 < total_problems then (pass1 : ℚ) / (total_problems : ℚ) else 0
          pass_at_8 :=
            if 0 < total_problems then (pass8 : ℚ) / (total_problems : ℚ) else 0
          pass_at_all :=
            if 0 < total_problems then (pass_all : ℚ) / (total_problems : ℚ) else 0
          pass_at_32 :=
            if 32 ≤ num_samples ∧ 0 < total_problems then
              some ((pass_all : ℚ) / (total_problems : ℚ))
            else none
          total_timeouts := total_timeouts
          problems_with_timeouts := problems_with_timeouts
          avg_generation_time := avg_gen_time
          avg_lean_check_time := avg_lean_time
          avg_total_time := avg_total_time
          total_generation_time := all_gen_times.sum
          total_lean_check_time := all_lean_times.sum
          total_evaluation_time := total_evaluation_time
          shards_merged := shards.length
          problem_results := all_problem_results }

/-- The duplicate-rejecting union pass of `scripts/aggregate_shards.py`
(`main`, lines 55-61): problem results with an empty `problem_id` are
skipped, a `problem_id` seen twice is a fatal `SystemExit`, the rest
are collected keyed by `problem_id`. -/
def aggregate_union (seen : List String) :
    List ProblemResult → Except String (List (String × List ProofAttempt))
  | [] => .ok []
  | pr :: rest =>
      if pr.problem_id = "" then aggregate_union seen rest
      else if seen.contains pr.problem_id then
        .error ("Duplicate problem_id " ++ pr.problem_id ++
          " across shards; check sharding setup")
      else
        match aggregate_union (pr.problem_id :: seen) rest with
        | .error e => .error e
        | .ok t => .ok ((pr.problem_id, pr.attempts) :: t)

/-! ## Process supervisor (`src/lean_utils.py`, `check_lean_file`) -/

/-- The possible runtime outcomes of one `check_lean_file` supervision,
abstracting the environment: the temp-file write raises (line 147), the
`Popen` raises `FileNotFoundError` (line 211), `communicate` raises
`TimeoutExpired` (line 173), the child exits with a return code, or any
other exception is raised inside the supervision `try` (line 214). -/
inductive LeanRunOutcome
  | writeFails (msg : String)
  | launchFails (msg : String)
  | timesOut
  | completes (returncode : Int) (stdout stderr : String)
  | unexpectedError (msg : String)
  deriving Repr, DecidableEq

/-- A value returned by `check_lean_file`.  Python is untyped: the
write-failure path (line 152) returns a 3-tuple while every other path
returns the documented 4-tuple, so the embedding keeps both shapes. -/
inductive CheckReturn
  | tuple3 (success : Bool) (stdout stderr : String)
  | tuple4 (success : Bool) (stdout stderr : String) (timeout_occurred : Bool)
  deriving Repr, DecidableEq

/-- `check_lean_file` (`src/lean_utils.py` lines 116-229): the returned
value together with whether the temporary input file was removed before
returning.  The `finally` block (lines 223-229) covers every exit of
the supervision `try` (lines 157-221) but not the early return of the
write-failure path (line 152), which exits before that `try` begins. -/
def check_lean_file (timeout : Nat) : LeanRunOutcome → CheckReturn × Bool
  | .writeFails msg =>
      (.tuple3 false "" ("Failed to write temp file: " ++ msg), false)
  | .launchFails msg =>
      (.tuple4 false "" ("Failed to run Lean: " ++ msg) false, true)
  | .timesOut =>
      (.tuple4 false ""
        ("Lean check TIMEOUT after " ++ toString timeout ++ " seconds") true, true)
  | .completes returncode stdout stderr =>
      (.tuple4 (returncode == 0) stdout stderr false, true)
  | .unexpectedError msg =>
      (.tuple4 false "" ("Unexpected error running Lean: " ++ msg) false, true)

/-! ## Evaluation driver step (`src/eval_minif2f.py` lines 539-568) -/

/-- What one verification step of the `evaluate_minif2f` attempt loop
does with the value returned by `check_lean_file`: either the run dies
with an uncaught exception, or an attempt record is appended. -/
inductive DriverStep
  | fatal (msg : String)
  | recorded (a : ProofAttempt)
  deriving Repr, DecidableEq

/-- The driver's handling of a `check_lean_file` return value
(`src/eval_minif2f.py` lines 539-568): the value is unpacked as
`ok, out, err, timeout_occurred` and recorded via
`metrics_tracker.record_attempt(..., success=ok, ...)` — there is no
fatal path for a launch failure; only a 3-tuple return would crash the
unpacking with an uncaught `ValueError`. -/
def driver_record_check (attempt_number : Nat)
    (gen_time lean_time : ℚ) (decoded solution final_lean : String) :
    CheckReturn → DriverStep
  | .tuple3 _ _ _ =>
      .fatal "ValueError: not enough values to unpack (expected 4, got 3)"
  | .tuple4 ok out err timeout_occurred =>
      .recorded (record_attempt attempt_number ok gen_time lean_time
        timeout_occurred none none (some decoded) (some solution)
        (some final_lean) (some out) (some err))

/-! ## Bounded generation wrapper (`src/eval_minif2f.py`, `safe_generate`) -/

/-- The behaviour of the background generation worker
(`generate_worker`, lines 72-105), abstracted: it finishes with a
decoded text at some elapsed time, raises an exception at some elapsed
time, or never finishes. -/
inductive GenOutcome
  | completes (t : ℚ) (text : String)
  | raisesErr (t : ℚ) (msg : String)
  | hangs
  deriving Repr, DecidableEq

/-- The timeout message `safe_generate` returns at the deadline
(line 119). -/
def gen_timeout_msg (timeout : ℚ) : String :=
  "Model generation TIMEOUT after " ++ toString timeout ++ " seconds"

/-- `safe_generate` (`src/eval_minif2f.py` lines 53-130): wait for the
worker's done-event up to the timeout; past the deadline return the
timeout error with `elapsed = timeout`; otherwise return the worker's
error if it raised, else its result, with the worker's own elapsed
time. -/
def safe_generate (timeout : ℚ) : GenOutcome → Option String × Option String × ℚ
  | .completes t text =>
      if t ≤ timeout then (some text, none, t)
      else (none, some (gen_timeout_msg timeout), timeout)
  | .raisesErr t msg =>
      if t ≤ timeout then (none, some msg, t)
      else (none, some (gen_timeout_msg timeout), timeout)
  | .hangs => (none, some (gen_timeout_msg timeout), timeout)

/-! ## Spec-side definition for the percentile refinement check -/

/-- Modelled from the spec: "timing percentiles (median, p90, p95)
computed over the pooled multiset of per-attempt durations using
nearest-rank selection on the sorted sequence".  The nearest-rank
`p`-th quantile of a non-empty sequence is the element of the sorted
sequence at rank `⌈p·n⌉` (1-based); `0` for an empty sequence. -/
def nearestRankQuantile (p : ℚ) (xs : List ℚ) : ℚ :=
  if xs.isEmpty then 0
  else (pySorted xs).getD ((⌈p * (xs.length : ℚ)⌉).toNat - 1) 0

/-! ## Fixtures used by the concrete scenarios -/

/-- A failing attempt with one-second timings. -/
def attemptFail (n : Nat) : ProofAttempt := record_attempt n false 1 1

/-- A successful attempt with one-second timings. -/
def attemptSucc (n : Nat) : ProofAttempt := record_attempt n true 1 1

/-- A sealed problem result whose `problem_id` contains a `/`. -/
def dupA : ProblemResult :=
  finish_problem "minif2f" "noncot" "algebra/p1" "a.lean" [attemptSucc 0]

/-- A sealed problem result whose distinct `problem_id` sanitises to the
same filename stem as `dupA`. -/
def dupB : ProblemResult :=
  finish_problem "minif2f" "noncot" "algebra_p1" "b.lean" [attemptFail 0]

/-- Two shard corpora whose problem files share the stem `algebra_p1`. -/
def dupShards : List Shard :=
  [⟨[⟨"algebra_p1", dupA⟩], none⟩, ⟨[⟨"algebra_p1", dupB⟩], none⟩]

/-- A problem result under filename stem `x`. -/
def sameA : ProblemResult :=
  finish_problem "minif2f" "noncot" "p7" "a.lean" [attemptSucc 0]

/-- The same `problem_id` as `sameA`, under filename stem `y`. -/
def sameB : ProblemResult :=
  finish_problem "minif2f" "noncot" "p7" "b.lean" [attemptFail 0]

/-- Two shard corpora holding the same `problem_id` under different
filename stems. -/
def sameIdShards : List Shard :=
  [⟨[⟨"x", sameA⟩], none⟩, ⟨[⟨"y", sameB⟩], none⟩]

/-- Two shard corpora holding the same `problem_id` `p7` under the
filename stem `_save_problem_result` derives from it (`safe_id "p7" =
"p7"`) — the layout two workers would actually produce for a
doubly-assigned problem. -/
def sameIdSameStemShards : List Shard :=
  [⟨[⟨"p7", sameA⟩], none⟩, ⟨[⟨"p7", sameB⟩], none⟩]

/-! ## Helper lemmas -/

lemma first_success_index_none_iff (l : List ProofAttempt) :
    first_success_index l = none ↔ l.any (·.success) = false := by
  induction l with
  | nil => simp [first_success_index]
  | cons a t ih =>
      by_cases ha : a.success <;> simp [first_success_index, ha, ih]

lemma first_success_index_spec (l : List ProofAttempt) (i : Nat)
    (h : first_success_index l = some i) :
    (l.take i).any (·.success) = false ∧ ∃ a, l[i]? = some a ∧ a.success = true := by
  induction l generalizing i with
  | nil => simp [first_success_index] at h
  | cons a t ih =>
      by_cases ha : a.success
      · simp [first_success_index, ha] at h
        subst h
        exact ⟨by simp, a, by simp, ha⟩
      · simp [first_success_index, ha] at h
        obtain ⟨j, hj, rfl⟩ := h
        obtain ⟨h1, b, hb, hs⟩ := ih j hj
        exact ⟨by simp [ha, h1], b, by simpa using hb, hs⟩

lemma dedupFiles_subset (seen : List String) (l : List ShardFile) :
    ∀ f ∈ dedupFiles seen l, f ∈ l := by
  induction l generalizing seen with
  | nil => simp [dedupFiles]
  | cons g t ih =>
      intro f hf
      by_cases hg : seen.contains g.stem = true
      · simp only [dedupFiles, hg, if_true] at hf
        exact List.mem_cons_of_mem _ (ih seen f hf)
      · simp only [dedupFiles, hg, if_false, Bool.false_eq_true, List.mem_cons] at hf
        rcases hf with rfl | hf
        · exact List.mem_cons_self _ _
        · exact List.mem_cons_of_mem _ (ih _ f hf)

lemma dedupFiles_nodup_avoid (seen : List String) (l : List ShardFile) :
    ((dedupFiles seen l).map (·.stem)).Nodup
    ∧ ∀ s ∈ (dedupFiles seen l).map (·.stem), s ∉ seen := by
  induction l generalizing seen with
  | nil => simp [dedupFiles]
  | cons g t ih =>
      by_cases hg : seen.contains g.stem = true
      · simpa only [dedupFiles, hg, if_true] using ih seen
      · obtain ⟨h1, h2⟩ := ih (g.stem :: seen)
        have hgm : g.stem ∉ seen := by simpa [List.contains] using hg
        constructor
        · simp only [dedupFiles, hg, if_false, Bool.false_eq_true, List.map_cons,
            List.nodup_cons]
          refine ⟨fun hmem => (h2 g.stem hmem) (List.mem_cons_self _ _), h1⟩
        · intro s hs
          simp only [dedupFiles, hg, if_false, Bool.false_eq_true, List.map_cons,
            List.mem_cons] at hs
          rcases hs with rfl | hs
          · exact hgm
          · exact fun hc => (h2 s hs) (List.mem_cons_of_mem _ hc)

lemma dedupFiles_coverage (seen : List String) (l : List ShardFile) :
    ∀ f ∈ l, f.stem ∈ seen ∨ f.stem ∈ (dedupFiles seen l).map (·.stem) := by
  induction l generalizing seen with
  | nil => simp
  | cons g t ih =>
      by_cases hg : seen.contains g.stem = true
      · intro f hf
        rcases List.mem_cons.mp hf with rfl | hf
        · left; simpa [List.contains] using hg
        · rcases ih seen f hf with h | h
          · left; exact h
          · right; simpa only [dedupFiles, hg, if_true] using h
      · intro f hf
        rcases List.mem_cons.mp hf with rfl | hf
        · right
          simp only [dedupFiles, hg, if_false, Bool.false_eq_true, List.map_cons,
            List.mem_cons]
          exact Or.inl trivial
        · rcases ih (g.stem :: seen) f hf with h | h
          · rcases List.mem_cons.mp h with h1 | h1
            · right
              simp only [dedupFiles, hg, if_false, Bool.false_eq_true, List.map_cons,
                List.mem_cons]
              exact Or.inl h1
            · left; exact h1
          · right
            simp only [dedupFiles, hg, if_false, Bool.false_eq_true, List.map_cons,
              List.mem_cons]
            exact Or.inr h

lemma merge_shards_error_iff (shards : List Shard) (filt : Option String)
    (e : MergeError) (he : merge_shards shards filt = .error e) :
    (e = .noShards ∧ shards = [])
    ∨ (e = .noProblems ∧ dedupFiles [] ((shards.map (·.files)).flatten) = []) := by
  unfold merge_shards at he
  split at he
  next hempty =>
    exact Or.inl ⟨(Except.error.inj he).symm, List.isEmpty_iff.mp hempty⟩
  next hempty =>
    simp only at he
    split at he
    next hkept =>
      refine Or.inr ⟨(Except.error.inj he).symm, ?_⟩
      simpa [List.isEmpty_iff, List.map_eq_nil_iff] using hkept
    next => exact absurd he (by simp)

lemma merge_shards_ok_spec (shards : List Shard) (filt : Option String)
    (m : MergedResult) (hm : merge_shards shards filt = .ok m) :
    m.proofs = dedupFiles [] ((shards.map (·.files)).flatten)
  ∧ m.problem_results = (dedupFiles [] ((shards.map (·.files)).flatten)).map (·.data)
  ∧ m.problem_results ≠ []
  ∧ m.pass_at_1 = (if 0 < m.problem_results.length then
      ((m.problem_results.countP (fun p => match p.attempts with
          | [] => false
          | a :: _ => a.success)) : ℚ) / (m.problem_results.length : ℚ) else 0)
  ∧ m.pass_at_8 = (if 0 < m.problem_results.length then
      ((m.problem_results.countP (fun p => (p.attempts.take 8).any (·.success))) : ℚ)
        / (m.problem_results.length : ℚ) else 0)
  ∧ m.pass_at_all = (if 0 < m.problem_results.length then
      ((m.problem_results.countP (fun p => p.attempts.any (·.success))) : ℚ)
        / (m.problem_results.length : ℚ) else 0)
  ∧ m.num_samples = (if 0 < (m.problem_results.map (·.attempts.length)).foldl max 0
      then (m.problem_results.map (·.attempts.length)).foldl max 0 else 8)
  ∧ m.pass_at_32 = (if 32 ≤ m.num_samples ∧ 0 < m.problem_results.length
      then some ((m.problem_results.countP (fun p => p.attempts.any (·.success)) : ℚ)
        / (m.problem_results.length : ℚ))
      else none)
  ∧ m.total_evaluation_time = (((shards.filterMap (·.metrics)).filter
      (fun mt => match filt with
                 | none => true
                 | some md => mt.mode == md)).map (·.total_evaluation_time)).sum := by
  unfold merge_shards at hm
  split at hm
  · exact absurd hm (by simp)
  · simp only at hm
    split at hm
    next => exact absurd hm (by simp)
    next hkept =>
      injection hm with h
      subst h
      refine ⟨rfl, rfl, ?_, rfl, rfl, rfl, rfl, rfl, rfl⟩
      simpa [List.isEmpty_iff, List.map_eq_nil_iff] using hkept

lemma string_append_right_inj (s t u : String) : s ++ u = t ++ u ↔ s = t := by
  constructor
  · intro h
    have hd := congrArg String.data h
    simp only [String.data_append] at hd
    exact String.ext (List.append_cancel_right hd)
  · rintro rfl; rfl

/-! ## Claim theorems -/

/-- C10.  The shard merge detects duplicates by filename stems, which
`_save_problem_result` derives from `problem_id` with `/` and `\`
replaced by `_`: two saved files carry the same name exactly when the
sanitised ids agree, distinct ids `algebra/p1` and `algebra_p1`
sanitise to the same stem and collide under the merge (the second entry
is dropped), while an identical `problem_id` stored under differently
named files is not detected (both copies reach the merged corpus). -/
theorem merge_duplicates_by_sanitised_stem :
    (∀ pr₁ pr₂ : ProblemResult,
        save_problem_filename pr₁ = save_problem_filename pr₂ ↔
          safe_id pr₁.problem_id = safe_id pr₂.problem_id)
  ∧ safe_id "algebra/p1" = safe_id "algebra_p1"
  ∧ ("algebra/p1" : String) ≠ "algebra_p1"
  ∧ ((merge_shards dupShards none).toOption.map
      (fun m => m.problem_results.map (·.problem_id))) = some ["algebra/p1"]
  ∧ dupA.problem_id ≠ dupB.problem_id
  ∧ ((merge_shards sameIdShards none).toOption.map
      (fun m => m.problem_results.map (·.problem_id))) = some ["p7", "p7"]
  ∧ sameA.problem_id = sameB.problem_id := by
  refine ⟨?_, by decide, by decide, rfl, by decide, rfl, rfl⟩
  intro pr₁ pr₂
  unfold save_problem_filename
  exact string_append_right_inj _ _ _

/-- C10 witness: the filename criterion applied to the concrete
colliding pair `dupA`, `dupB`. -/
theorem merge_duplicates_by_sanitised_stem_witness :
    save_problem_filename dupA = save_problem_filename dupB :=
  (merge_duplicates_by_sanitised_stem.1 dupA dupB).mpr (by decide)

/-- C1 counterexample.  Claimed: when the same `problem_id` occurs in
more than one shard, the merge raises a fatal, detectable error and
aborts, never silently dropping either entry and never producing a
merged corpus containing the duplicate.  Both with the same
`problem_id` `p7` in two shards: on `sameIdShards` (the copies sit
under differently named files) `merge_shards` succeeds without any
error and the merged corpus contains the duplicated `problem_id`
twice; on `sameIdSameStemShards` (the copies sit under the filename
stem saving derives from `p7`) it again succeeds without any error and
silently drops the second shard's entry, keeping only the first
(`a.lean`) — the two entries being genuinely distinct records of the
same problem.  Either behaviour falsifies the claim. -/
theorem merge_same_problem_id_not_fatal :
    ((merge_shards sameIdShards none).toOption.map
        (fun m => m.problem_results.map (·.problem_id))) = some ["p7", "p7"]
  ∧ ((merge_shards sameIdSameStemShards none).toOption.map
        (fun m => m.problem_results.map (·.problem_id))) = some ["p7"]
  ∧ ((merge_shards sameIdSameStemShards none).toOption.map
        (fun m => m.problem_results.map (·.problem_path))) = some ["a.lean"]
  ∧ sameA.problem_id = sameB.problem_id
  ∧ sameA.problem_path ≠ sameB.problem_path :=
  ⟨rfl, rfl, rfl, rfl, by decide⟩

/-- C1 amended.  When the same filename stem occurs in more than one
shard, `merge_shards` warns and skips every later occurrence, keeping
the first-seen entry: a duplicate never causes an error (the only fatal
merge errors are zero shards and zero problem results), and on success
the merged corpus holds exactly the first-pass deduplication — its
stems are pairwise distinct, every input stem is still represented, and
every merged file comes from some shard. -/
theorem merge_skips_duplicates (shards : List Shard) (filt : Option String) :
    (∀ e, merge_shards shards filt = .error e → e = .noShards ∨ e = .noProblems)
  ∧ (shards ≠ [] →
     dedupFiles [] ((shards.map (·.files)).flatten) ≠ [] →
     ∃ m, merge_shards shards filt = .ok m
       ∧ m.proofs = dedupFiles [] ((shards.map (·.files)).flatten)
       ∧ (m.proofs.map (·.stem)).Nodup
       ∧ (∀ f ∈ (shards.map (·.files)).flatten, f.stem ∈ m.proofs.map (·.stem))
       ∧ (∀ f ∈ m.proofs, f ∈ (shards.map (·.files)).flatten)) := by
  constructor
  · intro e he
    rcases merge_shards_error_iff shards filt e he with ⟨h, -⟩ | ⟨h, -⟩
    · exact Or.inl h
    · exact Or.inr h
  · intro h1 h2
    rcases hres : merge_shards shards filt with e | m
    · rcases merge_shards_error_iff shards filt e hres with ⟨-, h⟩ | ⟨-, h⟩
      · exact absurd h h1
      · exact absurd h h2
    · obtain ⟨hp, -⟩ := merge_shards_ok_spec shards filt m hres
      refine ⟨m, rfl, hp, ?_, ?_, ?_⟩
      · rw [hp]
        exact (dedupFiles_nodup_avoid [] _).1
      · intro f hf
        rw [hp]
        rcases dedupFiles_coverage [] _ f hf with h | h
        · simp at h
        · exact h
      · rw [hp]
        exact dedupFiles_subset [] _

/-- C1 witness: on the concrete duplicate-stem shards the merge
succeeds. -/
theorem merge_skips_duplicates_witness :
    (merge_shards dupShards none).isOk = true := by
  obtain ⟨m, hm, -⟩ := (merge_skips_duplicates dupShards none).2
    (by simp [dupShards])
    (by
      have hd : dedupFiles [] ((dupShards.map (·.files)).flatten)
          = [⟨"algebra_p1", dupA⟩] := rfl
      simp [hd])
  rw [hm]
  rfl


/-- Rewriting the advisory `pass_at_1` stored in a shard metrics
snapshot, leaving everything the merge reads (`mode`,
`total_evaluation_time`) unchanged. -/
def withAdvisoryPass (g : ℚ → ℚ) (s : Shard) : Shard :=
  { s with metrics := s.metrics.map (fun mt => { mt with pass_at_1 := g mt.pass_at_1 }) }

lemma advisory_metrics_times_eq (shards : List Shard) (P : ShardMetrics → Bool)
    (hP : ∀ (mt : ShardMetrics) (q : ℚ), P { mt with pass_at_1 := q } = P mt)
    (g : ℚ → ℚ) :
    (((shards.map (withAdvisoryPass g)).filterMap (·.metrics)).filter P).map
        (·.total_evaluation_time)
      = ((shards.filterMap (·.metrics)).filter P).map (·.total_evaluation_time) := by
  induction shards with
  | nil => rfl
  | cons s t ih =>
      cases hms : s.metrics with
      | none =>
          simp [withAdvisoryPass, List.filterMap_cons, hms]
          simpa [List.filterMap_map] using ih
      | some mt =>
          by_cases hp : P mt = true
          · simp [withAdvisoryPass, List.filterMap_cons, List.filter_cons, hms,
              hP mt (g mt.pass_at_1), hp]
            simpa [List.filterMap_map] using ih
          · simp [withAdvisoryPass, List.filterMap_cons, List.filter_cons, hms,
              hP mt (g mt.pass_at_1), hp]
            simpa [List.filterMap_map] using ih

lemma merge_shards_advisory_independent (shards : List Shard)
    (filt : Option String) (g : ℚ → ℚ) :
    merge_shards (shards.map (withAdvisoryPass g)) filt = merge_shards shards filt := by
  have hfiles : (shards.map (withAdvisoryPass g)).map (·.files) = shards.map (·.files) := by
    simp [withAdvisoryPass]
  have hisEmpty : (shards.map (withAdvisoryPass g)).isEmpty = shards.isEmpty := by
    cases shards <;> rfl
  have hlen : (shards.map (withAdvisoryPass g)).length = shards.length := by simp
  have hmet := advisory_metrics_times_eq shards
    (fun mt => match filt with
               | none => true
               | some mo => mt.mode == mo)
    (fun mt q => by cases filt <;> rfl) g
  unfold merge_shards
  simp only [hfiles, hisEmpty, hlen, hmet]

lemma compute_metrics_pass_at_1_eq (ds md ts : String) (tev : ℚ)
    (rs : List ProblemResult) :
    (compute_metrics ds md rs tev ts).pass_at_1
      = (if 0 < rs.length then
          ((rs.countP (fun r => match r.attempts with
              | [] => false
              | a :: _ => a.success)) : ℚ) / (rs.length : ℚ) else 0) := rfl

lemma compute_metrics_pass_at_8_eq (ds md ts : String) (tev : ℚ)
    (rs : List ProblemResult) :
    (compute_metrics ds md rs tev ts).pass_at_8
      = (if 0 < rs.length then
          ((rs.countP (fun r => !r.attempts.isEmpty
              && (r.attempts.take 8).any (·.success))) : ℚ) / (rs.length : ℚ)
        else 0) := rfl

lemma compute_metrics_pass_at_32_eq (ds md ts : String) (tev : ℚ)
    (rs : List ProblemResult) :
    (compute_metrics ds md rs tev ts).pass_at_32
      = (if 0 < rs.length then
          ((rs.countP (·.passed)) : ℚ) / (rs.length : ℚ) else 0) := rfl

lemma pass8_pred_eq (p : ProblemResult) :
    (!p.attempts.isEmpty && (p.attempts.take 8).any (·.success))
      = (p.attempts.take 8).any (·.success) := by
  cases h : p.attempts <;> simp [h]


/-- C2.  The Pass@K values the shard merge recomputes offline from the
union of raw attempts coincide with those `compute_metrics` computes
online over the same problem results (for K = 1, K = 8, and — whenever
the merge reports it, i.e. at least 32 samples were run — K = 32,
where the `passed` flags match the attempts as `finish_problem` seals
them); the merge re-derives them from raw attempts, not from the
shards own advisory Pass@K values (rewriting every shard metrics
`pass_at_1` arbitrarily leaves the merged output unchanged), and uses
the shard metrics files only to sum wall-clock evaluation time. -/
theorem merge_pass_at_k_matches_compute_metrics (shards : List Shard)
    (filt : Option String) (m : MergedResult)
    (hm : merge_shards shards filt = .ok m)
    (hinv : ∀ r ∈ m.problem_results, r.passed = r.attempts.any (·.success))
    (ds md ts : String) (tev : ℚ) :
    m.pass_at_1 = (compute_metrics ds md m.problem_results tev ts).pass_at_1
  ∧ m.pass_at_8 = (compute_metrics ds md m.problem_results tev ts).pass_at_8
  ∧ m.pass_at_all = (compute_metrics ds md m.problem_results tev ts).pass_at_32
  ∧ (32 ≤ m.num_samples →
      m.pass_at_32 = some ((compute_metrics ds md m.problem_results tev ts).pass_at_32))
  ∧ m.total_evaluation_time = (((shards.filterMap (·.metrics)).filter
      (fun mt => match filt with
                 | none => true
                 | some mo => mt.mode == mo)).map (·.total_evaluation_time)).sum
  ∧ (∀ g : ℚ → ℚ, merge_shards (shards.map (withAdvisoryPass g)) filt = .ok m) := by
  obtain ⟨-, -, hne, h1, h8, hall, -, h32, htev⟩ :=
    merge_shards_ok_spec shards filt m hm
  have hlen : 0 < m.problem_results.length := List.length_pos.mpr hne
  have hcnt8 : m.problem_results.countP
      (fun r => !r.attempts.isEmpty && (r.attempts.take 8).any (·.success))
      = m.problem_results.countP (fun p => (p.attempts.take 8).any (·.success)) :=
    List.countP_congr (fun r _ => by rw [pass8_pred_eq])
  have hcntAll : m.problem_results.countP (·.passed)
      = m.problem_results.countP (fun p => p.attempts.any (·.success)) :=
    List.countP_congr (fun r hr => by rw [hinv r hr])
  refine ⟨?_, ?_, ?_, ?_, htev, ?_⟩
  · rw [h1, compute_metrics_pass_at_1_eq]
  · rw [h8, compute_metrics_pass_at_8_eq, hcnt8]
  · rw [hall, compute_metrics_pass_at_32_eq, hcntAll]
  · intro hns
    rw [h32, if_pos ⟨hns, hlen⟩, compute_metrics_pass_at_32_eq, if_pos hlen, hcntAll]
  · intro g
    rw [merge_shards_advisory_independent, hm]

/-- A solved problem in the first witness shard. -/
def wPassed : ProblemResult :=
  finish_problem "minif2f" "noncot" "p1" "p1.lean" [attemptSucc 0]

/-- An unsolved problem in the second witness shard. -/
def wFailed : ProblemResult :=
  finish_problem "minif2f" "noncot" "p2" "p2.lean" [attemptFail 0]

/-- Two disjoint single-problem shard corpora with metrics snapshots. -/
def wShards : List Shard :=
  [⟨[⟨"p1", wPassed⟩], some ⟨"noncot", 10, 1⟩⟩,
   ⟨[⟨"p2", wFailed⟩], some ⟨"noncot", 20, 0⟩⟩]

/-- The merged result of the witness shards. -/
def wMerged : MergedResult := (merge_shards wShards none).toOption.getD default

/-- C2 witness: merging the two concrete witness shards gives the same
Pass@1 as `compute_metrics` over the merged problem results. -/
theorem merge_pass_at_k_matches_compute_metrics_witness :
    wMerged.pass_at_1
      = (compute_metrics "minif2f" "noncot" wMerged.problem_results 0 "t").pass_at_1 := by
  have hm : merge_shards wShards none = .ok wMerged := rfl
  have hpr : wMerged.problem_results = [wPassed, wFailed] := rfl
  refine (merge_pass_at_k_matches_compute_metrics wShards none wMerged hm
    ?_ "minif2f" "noncot" "t" 0).1
  intro r hr
  rw [hpr] at hr
  rcases List.mem_cons.mp hr with rfl | hr
  · rfl
  rcases List.mem_cons.mp hr with rfl | hr
  · rfl
  · exact absurd hr (List.not_mem_nil r)


/-- A problem with 33 attempts whose only success is the 33rd (index
32): the first 32 attempts all fail. -/
def lateSuccess : ProblemResult :=
  finish_problem "minif2f" "noncot" "p33" "p33.lean"
    ((List.range 33).map (fun i => record_attempt i (i == 32) 0 0))

/-- C6 counterexample.  Claimed: `pass_at_32` equals the fraction of
problems with at least one success among the first 32 attempts.  For
the one-problem corpus `[lateSuccess]` (success only at attempt index
32) the code computes `pass_at_32 = 1` while no problem has a success
among its first 32 attempts. -/
theorem pass_at_32_not_first_32_fraction :
    (compute_metrics "minif2f" "noncot" [lateSuccess] 0 "t").pass_at_32 = 1
  ∧ [lateSuccess].countP (fun r => (r.attempts.take 32).any (·.success)) = 0 := by
  constructor
  · norm_num [compute_metrics, lateSuccess, finish_problem, record_attempt]
  · decide

/-- C6 amended.  `compute_metrics` returns `pass_at_1` equal to the
fraction of problems whose first attempt succeeded and `pass_at_8`
equal to the fraction with a success among the first 8 attempts, as
claimed; `pass_at_32`, however, is the fraction of problems whose
`passed` flag is set — i.e. with a success among all attempts — which
equals the first-32-attempts fraction only under the additional
assumptions that each `passed` flag matches its attempts and no
problem has more than 32 attempts. -/
theorem compute_metrics_pass_at_k (ds md ts : String) (tev : ℚ)
    (rs : List ProblemResult) :
    (compute_metrics ds md rs tev ts).pass_at_1
      = (if 0 < rs.length then
          ((rs.countP (fun r => (r.attempts[0]?.map (·.success)).getD false)) : ℚ)
            / (rs.length : ℚ) else 0)
  ∧ (compute_metrics ds md rs tev ts).pass_at_8
      = (if 0 < rs.length then
          ((rs.countP (fun r => (r.attempts.take 8).any (·.success))) : ℚ)
            / (rs.length : ℚ) else 0)
  ∧ ((∀ r ∈ rs, r.passed = r.attempts.any (·.success)) →
     (∀ r ∈ rs, r.attempts.length ≤ 32) →
      (compute_metrics ds md rs tev ts).pass_at_32
        = (if 0 < rs.length then
            ((rs.countP (fun r => (r.attempts.take 32).any (·.success))) : ℚ)
              / (rs.length : ℚ) else 0)) := by
  refine ⟨?_, ?_, ?_⟩
  · rw [compute_metrics_pass_at_1_eq]
    have h : rs.countP (fun r => match r.attempts with
        | [] => false
        | a :: _ => a.success)
        = rs.countP (fun r => (r.attempts[0]?.map (·.success)).getD false) :=
      List.countP_congr (fun r _ => by cases h : r.attempts <;> simp [h])
    rw [h]
  · rw [compute_metrics_pass_at_8_eq]
    have h : rs.countP (fun r => !r.attempts.isEmpty
          && (r.attempts.take 8).any (·.success))
        = rs.countP (fun r => (r.attempts.take 8).any (·.success)) :=
      List.countP_congr (fun r _ => by rw [pass8_pred_eq])
    rw [h]
  · intro hpass hlen
    rw [compute_metrics_pass_at_32_eq]
    have h : rs.countP (·.passed)
        = rs.countP (fun r => (r.attempts.take 32).any (·.success)) :=
      List.countP_congr (fun r hr => by
        rw [hpass r hr, List.take_of_length_le (hlen r hr)])
    rw [h]

/-- C6 witness: the amended `pass_at_32` characterisation applied to
the concrete two-problem corpus `[wPassed, wFailed]`. -/
theorem compute_metrics_pass_at_k_witness :
    (compute_metrics "minif2f" "noncot" [wPassed, wFailed] 0 "t").pass_at_32
      = (if 0 < ([wPassed, wFailed] : List ProblemResult).length then
          (([wPassed, wFailed].countP
              (fun r => (r.attempts.take 32).any (·.success))) : ℚ)
            / (([wPassed, wFailed] : List ProblemResult).length : ℚ) else 0) := by
  refine (compute_metrics_pass_at_k "minif2f" "noncot" "t" 0 [wPassed, wFailed]).2.2
    ?_ ?_
  · intro r hr
    rcases List.mem_cons.mp hr with rfl | hr
    · rfl
    rcases List.mem_cons.mp hr with rfl | hr
    · rfl
    · exact absurd hr (List.not_mem_nil r)
  · intro r hr
    rcases List.mem_cons.mp hr with rfl | hr
    · decide
    rcases List.mem_cons.mp hr with rfl | hr
    · decide
    · exact absurd hr (List.not_mem_nil r)

/-- A problem with two failing attempts whose generation times are 1
and 2 seconds. -/
def medDemo : ProblemResult :=
  finish_problem "minif2f" "noncot" "pm" "pm.lean"
    [record_attempt 0 false 1 0, record_attempt 1 false 2 0]

/-- C8 counterexample.  Claimed: the timing percentiles (median, p90,
p95) are computed by nearest-rank selection on the sorted pooled
durations.  On the pooled generation times `[1, 2]` of `[medDemo]` the
code takes the element at index `len // 2 = 1` of the sorted sequence,
yielding 2, while nearest-rank selection for the median yields the
rank-⌈n/2⌉ element, 1 — and no p90/p95 statistic is computed at all
(`EvaluationMetrics` carries no such field). -/
theorem median_not_nearest_rank :
    (compute_metrics "minif2f" "noncot" [medDemo] 0 "t").median_generation_time = 2
  ∧ nearestRankQuantile (1/2)
      ((([medDemo] : List ProblemResult).map
        (fun r => r.attempts.map (·.generation_time))).flatten) = 1
  ∧ (compute_metrics "minif2f" "noncot" [medDemo] 0 "t").median_generation_time
      ≠ nearestRankQuantile (1/2)
        ((([medDemo] : List ProblemResult).map
          (fun r => r.attempts.map (·.generation_time))).flatten) := by
  have h1 : (compute_metrics "minif2f" "noncot" [medDemo] 0 "t").median_generation_time
      = 2 := by
    norm_num [compute_metrics, medDemo, finish_problem, record_attempt, pyMedian,
      pySorted, List.insertionSort, List.orderedInsert]
  have h2 : nearestRankQuantile (1/2)
      ((([medDemo] : List ProblemResult).map
        (fun r => r.attempts.map (·.generation_time))).flatten) = 1 := by
    norm_num [nearestRankQuantile, medDemo, finish_problem, record_attempt,
      pySorted, List.insertionSort, List.orderedInsert]
  exact ⟨h1, h2, by rw [h1, h2]; norm_num⟩

lemma pyMedian_spec (xs : List ℚ) :
    ∃ sorted : List ℚ, sorted.Perm xs ∧ sorted.Sorted (· ≤ ·)
      ∧ pyMedian xs = (if xs.isEmpty then 0 else sorted.getD (xs.length / 2) 0) :=
  ⟨pySorted xs, List.perm_insertionSort _ xs, List.sorted_insertionSort _ xs, rfl⟩

/-- C8 amended.  `compute_metrics` computes, for each pooled per-attempt
duration list, only the median — the element at index `⌊n/2⌋` of an
ascending sorted permutation of the pooled list (the upper median, not
a nearest-rank selection), and no p90/p95 — and over an empty set of
`ProblemResult`s it returns all-zero statistics without raising. -/
theorem compute_metrics_median_and_empty (ds md ts : String) (tev : ℚ)
    (rs : List ProblemResult) :
    (compute_metrics ds md rs tev ts).median_generation_time
        = pyMedian ((rs.map (fun r => r.attempts.map (·.generation_time))).flatten)
  ∧ (compute_metrics ds md rs tev ts).median_lean_check_time
        = pyMedian ((rs.map (fun r => r.attempts.map (·.lean_check_time))).flatten)
  ∧ (compute_metrics ds md rs tev ts).median_total_time
        = pyMedian ((rs.map (fun r => r.attempts.map (·.total_time))).flatten)
  ∧ (∀ xs : List ℚ, ∃ sorted : List ℚ, sorted.Perm xs ∧ sorted.Sorted (· ≤ ·)
        ∧ pyMedian xs = (if xs.isEmpty then 0 else sorted.getD (xs.length / 2) 0))
  ∧ ((compute_metrics ds md [] tev ts).total_problems = 0
      ∧ (compute_metrics ds md [] tev ts).problems_passed = 0
      ∧ (compute_metrics ds md [] tev ts).problems_failed = 0
      ∧ (compute_metrics ds md [] tev ts).pass_at_1 = 0
      ∧ (compute_metrics ds md [] tev ts).pass_at_8 = 0
      ∧ (compute_metrics ds md [] tev ts).pass_at_32 = 0
      ∧ (compute_metrics ds md [] tev ts).total_timeouts = 0
      ∧ (compute_metrics ds md [] tev ts).problems_with_timeouts = 0
      ∧ (compute_metrics ds md [] tev ts).avg_generation_time = 0
      ∧ (compute_metrics ds md [] tev ts).avg_lean_check_time = 0
      ∧ (compute_metrics ds md [] tev ts).avg_total_time = 0
      ∧ (compute_metrics ds md [] tev ts).median_generation_time = 0
      ∧ (compute_metrics ds md [] tev ts).median_lean_check_time = 0
      ∧ (compute_metrics ds md [] tev ts).median_total_time = 0
      ∧ (compute_metrics ds md [] tev ts).total_generation_time = 0
      ∧ (compute_metrics ds md [] tev ts).total_lean_check_time = 0) :=
  ⟨rfl, rfl, rfl, pyMedian_spec,
    rfl, rfl, rfl, rfl, rfl, rfl, rfl, rfl, rfl, rfl, rfl, rfl, rfl, rfl, rfl, rfl⟩

/-- C3.  Claimed: `check_lean_file` returns a 4-tuple
`(success, stdout, stderr, timeoutOccurred)` on every exit path.  The
code violates this: the temp-file write-failure path
(`src/lean_utils.py` line 152) returns a 3-tuple, while all other exit
paths return the documented 4-tuple with `timeoutOccurred` true exactly
on the timeout path.  This theorem evaluates the supervision at each
exit path, exhibiting the divergence. -/
theorem check_lean_file_write_failure_three_tuple :
    (check_lean_file 120 (.writeFails "disk full")).1
      = CheckReturn.tuple3 false "" "Failed to write temp file: disk full"
  ∧ (check_lean_file 120 (.launchFails "No such file or directory")).1
      = CheckReturn.tuple4 false "" "Failed to run Lean: No such file or directory" false
  ∧ (check_lean_file 120 .timesOut).1
      = CheckReturn.tuple4 false "" "Lean check TIMEOUT after 120 seconds" true
  ∧ (check_lean_file 120 (.completes 0 "out" "err")).1
      = CheckReturn.tuple4 true "out" "err" false
  ∧ (check_lean_file 120 (.completes 1 "out" "err")).1
      = CheckReturn.tuple4 false "out" "err" false
  ∧ (check_lean_file 120 (.unexpectedError "boom")).1
      = CheckReturn.tuple4 false "" "Unexpected error running Lean: boom" false :=
  ⟨rfl, rfl, by decide, rfl, rfl, rfl⟩

/-- C4.  Claimed: the temporary input file is removed before
`check_lean_file` returns on every exit path.  The code violates this:
the cleanup lives in the `finally` of the supervision `try`
(`src/lean_utils.py` lines 223-229), which the early return of the
write-failure path (line 152) never enters, so on that path the temp
file is left behind; every other exit path does remove it. -/
theorem check_lean_file_temp_file_removal :
    (∀ t msg, (check_lean_file t (.writeFails msg)).2 = false)
  ∧ (∀ t msg, (check_lean_file t (.launchFails msg)).2 = true)
  ∧ (∀ t, (check_lean_file t .timesOut).2 = true)
  ∧ (∀ t c o e, (check_lean_file t (.completes c o e)).2 = true)
  ∧ (∀ t msg, (check_lean_file t (.unexpectedError msg)).2 = true) :=
  ⟨fun _ _ => rfl, fun _ _ => rfl, fun _ => rfl, fun _ _ _ _ => rfl, fun _ _ => rfl⟩

/-- C5 counterexample.  Claimed: a verifier launch failure surfaces as a
fatal evaluation-setup error rather than being recorded as an ordinary
failed per-attempt result.  At the concrete launch-failure outcome the
driver step (`src/eval_minif2f.py` lines 539-568) records an ordinary
failed attempt (`success=false`, `timeout_occurred=false`) and does not
produce a fatal error. -/
theorem launch_failure_not_fatal :
    driver_record_check 3 5 0 "raw" "sol" "final"
        (check_lean_file 120 (.launchFails "No such file or directory: lake")).1
      = DriverStep.recorded (record_attempt 3 false 5 0 false none none (some "raw")
          (some "sol") (some "final") (some "")
          (some "Failed to run Lean: No such file or directory: lake")) :=
  rfl

/-- C5 amended.  When the verifier command cannot be launched,
`check_lean_file` reports a non-timeout error
(`timeoutOccurred = false`), and the evaluation driver records it as an
ordinary failed per-attempt result (`success = false`,
`timeout_occurred = false`, the launch error in `lean_stderr`) and
continues — it is not surfaced as a fatal evaluation-setup error. -/
theorem launch_failure_nontimeout_recorded (t : Nat) (msg : String) (n : Nat)
    (gt lt : ℚ) (d s f : String) :
    (check_lean_file t (.launchFails msg)).1
      = CheckReturn.tuple4 false "" ("Failed to run Lean: " ++ msg) false
  ∧ ∃ a, driver_record_check n gt lt d s f (check_lean_file t (.launchFails msg)).1
        = DriverStep.recorded a
      ∧ a.success = false ∧ a.timeout_occurred = false
      ∧ a.lean_stderr = some ("Failed to run Lean: " ++ msg) :=
  ⟨rfl, _, rfl, rfl, rfl, rfl⟩

/-- C7.  `finish_problem` constructs a `ProblemResult` with `passed`
equal to whether any attempt succeeded and `first_success_attempt` the
minimum index of a successful attempt (no success strictly before it,
success at it), absent exactly when `passed` is false; attempts
`[fail, success, fail]` yield `passed = true` and
`first_success_attempt = 1`, and an empty attempt list yields
`passed = false` with `first_success_attempt` absent. -/
theorem finish_problem_first_success (ds md pid path : String)
    (attempts : List ProofAttempt) :
    ((finish_problem ds md pid path attempts).passed = attempts.any (·.success))
  ∧ (∀ i, (finish_problem ds md pid path attempts).first_success_attempt = some i →
        (attempts.take i).any (·.success) = false
        ∧ ∃ a, attempts[i]? = some a ∧ a.success = true)
  ∧ ((finish_problem ds md pid path attempts).first_success_attempt = none ↔
        (finish_problem ds md pid path attempts).passed = false)
  ∧ (finish_problem "minif2f" "noncot" "p" "q"
      [attemptFail 0, attemptSucc 1, attemptFail 2]).passed = true
  ∧ (finish_problem "minif2f" "noncot" "p" "q"
      [attemptFail 0, attemptSucc 1, attemptFail 2]).first_success_attempt = some 1
  ∧ (finish_problem "minif2f" "noncot" "p" "q" []).passed = false
  ∧ (finish_problem "minif2f" "noncot" "p" "q" []).first_success_attempt = none := by
  refine ⟨rfl, fun i h => first_success_index_spec attempts i h,
    first_success_index_none_iff attempts, by decide, by decide, rfl, rfl⟩

/-- C7 witness: the theorem applied to the `[fail, success, fail]`
scenario at index 1. -/
theorem finish_problem_first_success_witness :
    (([attemptFail 0, attemptSucc 1, attemptFail 2].take 1).any (·.success) = false)
  ∧ ∃ a, [attemptFail 0, attemptSucc 1, attemptFail 2][1]? = some a ∧ a.success = true :=
  (finish_problem_first_success "minif2f" "noncot" "p" "q"
    [attemptFail 0, attemptSucc 1, attemptFail 2]).2.1 1 (by decide)

/-- C9.  `safe_generate` is a total function of the worker outcome (it
never raises) and returns exactly one of: the decoded result with no
error and the worker's elapsed time when the worker completes within
the timeout; no result, the timeout error and `elapsed = timeout` when
the deadline elapses first; no result, the worker's runtime error and
its elapsed time when the worker raised before the deadline.  A result
and an error are mutually exclusive and one of them is always present. -/
theorem safe_generate_trichotomy (timeout : ℚ) (oc : GenOutcome) :
    ((safe_generate timeout oc).1.isSome → (safe_generate timeout oc).2.1 = none)
  ∧ ((safe_generate timeout oc).1 = none → (safe_generate timeout oc).2.1.isSome)
  ∧ (∀ t text, oc = .completes t text → t ≤ timeout →
      safe_generate timeout oc = (some text, none, t))
  ∧ (∀ t msg, oc = .raisesErr t msg → t ≤ timeout →
      safe_generate timeout oc = (none, some msg, t))
  ∧ ((∀ t text, oc = .completes t text → timeout < t) →
     (∀ t msg, oc = .raisesErr t msg → timeout < t) →
      safe_generate timeout oc = (none, some (gen_timeout_msg timeout), timeout)) := by
  refine ⟨?_, ?_, ?_, ?_, ?_⟩
  · intro h
    cases oc with
    | completes t text =>
        by_cases ht : t ≤ timeout <;> simp [safe_generate, ht] at h ⊢
    | raisesErr t msg =>
        by_cases ht : t ≤ timeout <;> simp [safe_generate, ht] at h ⊢
    | hangs => simp [safe_generate] at h
  · intro h
    cases oc with
    | completes t text =>
        by_cases ht : t ≤ timeout <;> simp [safe_generate, ht] at h ⊢
    | raisesErr t msg =>
        by_cases ht : t ≤ timeout <;> simp [safe_generate, ht]
    | hangs => simp [safe_generate]
  · rintro t text rfl ht
    simp [safe_generate, ht]
  · rintro t msg rfl ht
    simp [safe_generate, ht]
  · intro hc hr
    cases oc with
    | completes t text =>
        have := hc t text rfl
        simp [safe_generate, not_le.mpr this]
    | raisesErr t msg =>
        have := hr t msg rfl
        simp [safe_generate, not_le.mpr this]
    | hangs => simp [safe_generate]

/-- C9 witness: a worker completing at 7 seconds under a 300-second
deadline returns its text, no error, and 7 seconds elapsed. -/
theorem safe_generate_trichotomy_witness :
    safe_generate 300 (.completes 7 "theorem t : True := trivial")
      = (some "theorem t : True := trivial", none, 7) :=
  (safe_generate_trichotomy 300 (.completes 7 "theorem t : True := trivial")).2.2.1
    7 "theorem t : True := trivial" rfl (by norm_num)

end DeepseekProverEval
